import Mathlib

/-!
Shallow embedding of the notebook `The Typing package and usages.ipynb`
from the repository `Applied-Machine-Learning-Notebooks-2024`.

Each Python snippet of the notebook is translated into an executable Lean
definition: Python `int` becomes `Int`, `str` becomes `String`,
`Optional[T]` becomes `Option T`, dictionaries become association lists
looked up with `List.lookup`, and Python floats are modelled as rationals
(`Rat`).  Where a snippet's runtime behaviour can produce a value outside
its annotated type (the fall-through of `process`, which yields Python's
`None`), the dynamic value type `PyVal` is used.  Methods of the
illustrative classes are embedded in state-passing style: a method takes
the object (Python's `self`) and returns its result paired with the
object after the call, so that frame conditions (no field is mutated) can
be stated.
-/

/-- Dynamic Python runtime values, as far as the notebook needs them:
integers, strings, floats (modelled as rationals) and `None`. -/
inductive PyVal : Type where
  | int (n : Int)
  | str (s : String)
  | float (q : Rat)
  | none
deriving DecidableEq

/-- `def add(a: int, b: int) -> int: return a + b` (cell `b51cf189`). -/
def add (a b : Int) : Int :=
  a + b

/-- `def greet(name: str) -> str: return f"Hello, {name}!"` (cell `b51cf189`). -/
def greet (name : String) : String :=
  "Hello, " ++ name ++ "!"

/-- `get_user_id` (cell `9319ce95`): looks `username` up in the dict
`{"Alice": 1, "Bob": 2}` with `dict.get`, which returns `None` on a miss
(embedded as `Option.none`) and never raises. -/
def get_user_id (username : String) : Option Int :=
  List.lookup username [("Alice", 1), ("Bob", 2)]

/-- `process` (cell `65805a55`): branches on `isinstance`.  An `int` and a
`str` each produce a formatted string; any other runtime value falls
through both branches and the function returns Python's implicit `None`,
despite the `-> str` annotation.  The result is therefore a `PyVal`. -/
def process (value : PyVal) : PyVal :=
  match value with
  | PyVal.int n => PyVal.str ("Processing number " ++ toString n)
  | PyVal.str s => PyVal.str ("Processing string '" ++ s ++ "'")
  | _ => PyVal.none

/-- `get_user_name` (cell `d3078e7d`): looks `user_id` up in the dict
`{UserID(1): "Alice", UserID(2): "Bob"}` with `users.get(user_id, "Unknown")`,
so a miss returns the default string `"Unknown"`.  `UserID = NewType('UserID', int)`
is the identity at runtime, so keys are plain `Int`s.  The result is
embedded as a `PyVal` so that the shape of the returned runtime value
(always a string, never `None`) is visible. -/
def get_user_name (user_id : Int) : PyVal :=
  PyVal.str ((List.lookup user_id [(1, "Alice"), (2, "Bob")]).getD "Unknown")

/-- `Person` (cell `5e351210`): `name: str`, `age: int`, both assigned in
`__init__`. -/
structure Person where
  name : String
  age : Int
deriving DecidableEq

/-- `Person.introduce` (cell `5e351210`), in state-passing style: the
formatted string paired with `self` after the call (the method body only
reads `self.name` and `self.age`). -/
def Person.introduce (self : Person) : String × Person :=
  ("My name is " ++ self.name ++ ", and I am " ++ toString self.age ++
      " years old.",
    self)

/-- `Classroom` (cell `5696a4d0`): `students: List[Person]`. -/
structure Classroom where
  students : List Person
deriving DecidableEq

/-- `Classroom.get_student_names` (cell `5696a4d0`):
`[student.name for student in self.students]`, in state-passing style. -/
def Classroom.get_student_names (self : Classroom) : List String × Classroom :=
  (self.students.map Person.name, self)

/-- `PersonWithNickname` (cell `229827a0`): `name: str`, `age: int`,
`nickname: Optional[str] = None`. -/
structure PersonWithNickname where
  name : String
  age : Int
  nickname : Option String
deriving DecidableEq

/-- Python truthiness of an `Optional[str]` value, as tested by
`if self.nickname:` — `None` and the empty string are falsy, any
non-empty string is truthy. -/
def strOptTruthy : Option String → Bool
  | Option.none => false
  | Option.some s => !(s == "")

/-- `PersonWithNickname.introduce` (cell `229827a0`), in state-passing
style: `if self.nickname:` branches on truthiness, not on presence. -/
def PersonWithNickname.introduce (self : PersonWithNickname) :
    String × PersonWithNickname :=
  (if strOptTruthy self.nickname then
      "My name is " ++ self.name ++ ", but you can call me " ++
        self.nickname.getD "" ++ "."
    else
      "My name is " ++ self.name ++ ", and I am " ++ toString self.age ++
        " years old.",
    self)

/-- `Box(Generic[T])` (cell `b01741aa`): a single `content: T` field. -/
structure Box (T : Type) where
  content : T

/-- `Box.get_content` (cell `b01741aa`): `return self.content`, in
state-passing style. -/
def Box.get_content {T : Type} (self : Box T) : T × Box T :=
  (self.content, self)

/-- `StudentList = List[Person]` (cell `950f0c73`). -/
abbrev StudentList : Type := List Person

/-- `School` (cell `950f0c73`): `students: StudentList`. -/
structure School where
  students : StudentList
deriving DecidableEq

/-- `School.get_total_students` (cell `950f0c73`):
`return len(self.students)`, in state-passing style. -/
def School.get_total_students (self : School) : Nat × School :=
  (self.students.length, self)

/-- A pandas row, modelled as an association list from column names to
entries; the notebook only filters on numeric entries, modelled as `Rat`. -/
abbrev Row : Type := List (String × Rat)

/-- The entry of a row at a column (`0` if the row lacks the column; in a
well-formed frame every row carries every column of the frame). -/
def Row.entry (r : Row) (c : String) : Rat :=
  (List.lookup c r).getD 0

/-- A pandas `DataFrame`, modelled as its column names plus its rows in
order. -/
structure DataFrame where
  cols : List String
  rows : List Row
deriving DecidableEq

/-- `filter_data` (cell `6d2620f0`): `return df[df['value'] > threshold]`.
The column access `df['value']` raises `KeyError` when the frame has no
`'value'` column, embedded as `Except.error`; otherwise the boolean mask
`df['value'] > threshold` keeps exactly the rows whose `'value'` entry
strictly exceeds the threshold, in order. -/
def filter_data (df : DataFrame) (threshold : Rat) : Except String DataFrame :=
  if "value" ∈ df.cols then
    Except.ok
      ⟨df.cols, df.rows.filter (fun r => decide (threshold < Row.entry r "value"))⟩
  else
    Except.error "KeyError"

/-- C1: `get_user_id` returns `some 1` for `"Alice"`, `some 2` for `"Bob"`,
and `none` for every other username; the miss is a value, not an
exception. -/
theorem c1_get_user_id_total_lookup (u : String)
    (h1 : u ≠ "Alice") (h2 : u ≠ "Bob") :
    get_user_id "Alice" = some 1 ∧ get_user_id "Bob" = some 2 ∧
      get_user_id u = Option.none := by
  refine ⟨rfl, rfl, ?_⟩
  have hb1 : (u == "Alice") = false := by simpa using h1
  have hb2 : (u == "Bob") = false := by simpa using h2
  simp [get_user_id, List.lookup, hb1, hb2]

/-- Witness for C1 at the concrete username `"Carol"`. -/
theorem c1_get_user_id_total_lookup_witness :
    get_user_id "Alice" = some 1 ∧ get_user_id "Bob" = some 2 ∧
      get_user_id "Carol" = Option.none :=
  c1_get_user_id_total_lookup "Carol" (by decide) (by decide)

/-- C2: `process` maps an `int` to `"Processing number {value}"` and a
`str` to `"Processing string '{value}'"`. -/
theorem c2_process_branches (n : Int) (s : String) :
    process (PyVal.int n) = PyVal.str ("Processing number " ++ toString n) ∧
      process (PyVal.str s) = PyVal.str ("Processing string '" ++ s ++ "'") :=
  ⟨rfl, rfl⟩

/-- C3: `add` returns the sum of its two integer arguments; at the literal
inputs `2` and `3` it returns the literal `5`. -/
theorem c3_add_returns_sum (a b : Int) :
    add a b = a + b ∧ add 2 3 = 5 :=
  ⟨rfl, rfl⟩

/-- C5 counterexample: at the missing id `3`, `get_user_name` returns the
string `"Unknown"`, which is not an absent value (`None`). -/
theorem c5_get_user_name_counterexample :
    get_user_name 3 = PyVal.str "Unknown" ∧
      get_user_name 3 ≠ PyVal.none := by
  refine ⟨rfl, ?_⟩
  intro h
  exact PyVal.noConfusion h

/-- C5 (amended): `get_user_name` returns the mapped name on a hit, and on
a lookup miss it returns the default string `"Unknown"` — always a string,
never an absent value. -/
theorem c5_get_user_name_default (i : Int) (h1 : i ≠ 1) (h2 : i ≠ 2) :
    get_user_name 1 = PyVal.str "Alice" ∧ get_user_name 2 = PyVal.str "Bob" ∧
      get_user_name i = PyVal.str "Unknown" := by
  refine ⟨rfl, rfl, ?_⟩
  have hb1 : (i == 1) = false := by simpa using h1
  have hb2 : (i == 2) = false := by simpa using h2
  simp [get_user_name, List.lookup, hb1, hb2]

/-- Witness for the amended C5 at the concrete id `3`. -/
theorem c5_get_user_name_default_witness :
    get_user_name 1 = PyVal.str "Alice" ∧ get_user_name 2 = PyVal.str "Bob" ∧
      get_user_name 3 = PyVal.str "Unknown" :=
  c5_get_user_name_default 3 (by decide) (by decide)

/-- C6: every method of the illustrative classes leaves all fields of its
object unchanged — the object after the call equals the object before. -/
theorem c6_methods_preserve_fields :
    (∀ p : Person, (Person.introduce p).2 = p) ∧
      (∀ c : Classroom, (Classroom.get_student_names c).2 = c) ∧
      (∀ p : PersonWithNickname, (PersonWithNickname.introduce p).2 = p) ∧
      (∀ (T : Type) (b : Box T), (Box.get_content b).2 = b) ∧
      (∀ s : School, (School.get_total_students s).2 = s) :=
  ⟨fun _ => rfl, fun _ => rfl, fun _ => rfl, fun _ _ => rfl, fun _ => rfl⟩

/-- C8: on a runtime value that is neither an `int` nor a `str`, `process`
falls through both branches and returns `None`, not a string. -/
theorem c8_process_fallthrough (v : PyVal)
    (hi : ∀ n : Int, v ≠ PyVal.int n) (hs : ∀ s : String, v ≠ PyVal.str s) :
    process v = PyVal.none ∧ ∀ s : String, process v ≠ PyVal.str s := by
  cases v with
  | int n => exact absurd rfl (hi n)
  | str s => exact absurd rfl (hs s)
  | float q => exact ⟨rfl, fun s h => PyVal.noConfusion h⟩
  | none => exact ⟨rfl, fun s h => PyVal.noConfusion h⟩

/-- Witness for C8 at the concrete non-int non-str value `None`. -/
theorem c8_process_fallthrough_witness :
    process PyVal.none = PyVal.none ∧
      ∀ s : String, process PyVal.none ≠ PyVal.str s :=
  c8_process_fallthrough PyVal.none
    (fun _ h => PyVal.noConfusion h) (fun _ h => PyVal.noConfusion h)

/-- C9: `PersonWithNickname.introduce` branches on truthiness: with the
empty-string nickname it returns the same age-formatted string as with no
nickname, and only a non-empty nickname yields the nickname form. -/
theorem c9_nickname_truthiness (nm : String) (a : Int) (nn : String)
    (h : nn ≠ "") :
    (PersonWithNickname.introduce ⟨nm, a, Option.some ""⟩).1 =
        (PersonWithNickname.introduce ⟨nm, a, Option.none⟩).1 ∧
      (PersonWithNickname.introduce ⟨nm, a, Option.some ""⟩).1 =
        "My name is " ++ nm ++ ", and I am " ++ toString a ++ " years old." ∧
      (PersonWithNickname.introduce ⟨nm, a, Option.some nn⟩).1 =
        "My name is " ++ nm ++ ", but you can call me " ++ nn ++ "." := by
  have hb : (nn == "") = false := by simpa using h
  refine ⟨rfl, rfl, ?_⟩
  simp [PersonWithNickname.introduce, strOptTruthy, hb]

/-- Witness for C9 at the concrete person `("Alice", 25)` with nickname
`"Ally"`. -/
theorem c9_nickname_truthiness_witness :
    (PersonWithNickname.introduce ⟨"Alice", 25, Option.some ""⟩).1 =
        (PersonWithNickname.introduce ⟨"Alice", 25, Option.none⟩).1 ∧
      (PersonWithNickname.introduce ⟨"Alice", 25, Option.some ""⟩).1 =
        "My name is " ++ "Alice" ++ ", and I am " ++ toString (25 : Int) ++
          " years old." ∧
      (PersonWithNickname.introduce ⟨"Alice", 25, Option.some "Ally"⟩).1 =
        "My name is " ++ "Alice" ++ ", but you can call me " ++ "Ally" ++ "." :=
  c9_nickname_truthiness "Alice" 25 "Ally" (by decide)

/-- C10: constructing a `Box` and reading it back is the identity:
`Box(x).get_content() == x` for every content value of every type. -/
theorem c10_box_roundtrip :
    ∀ (T : Type) (x : T), (Box.get_content (Box.mk x)).1 = x :=
  fun _ _ => rfl

/-- C4: on a frame with a `'value'` column, `filter_data` succeeds and
returns exactly the rows whose `'value'` entry strictly exceeds the
threshold — a sublist of the input rows (order preserved), containing
every qualifying row and no other row. -/
theorem c4_filter_data_rows (df : DataFrame) (t : Rat)
    (h : "value" ∈ df.cols) :
    ∃ out : DataFrame, filter_data df t = Except.ok out ∧
      out.cols = df.cols ∧
      List.Sublist out.rows df.rows ∧
      (∀ r ∈ out.rows, t < Row.entry r "value") ∧
      (∀ r ∈ df.rows, t < Row.entry r "value" → r ∈ out.rows) := by
  refine ⟨⟨df.cols, df.rows.filter (fun r => decide (t < Row.entry r "value"))⟩,
    ?_, rfl, ?_, ?_, ?_⟩
  · simp [filter_data, h]
  · exact List.filter_sublist df.rows
  · intro r hr
    simpa using (List.mem_filter.mp hr).2
  · intro r hr hv
    exact List.mem_filter.mpr ⟨hr, by simpa using hv⟩

/-- Witness for C4 at a concrete two-row frame and threshold `3`. -/
theorem c4_filter_data_rows_witness :
    ∃ out : DataFrame,
      filter_data ⟨["value"], [[("value", 5)], [("value", 1)]]⟩ 3 =
        Except.ok out ∧
      out.cols = (⟨["value"], [[("value", 5)], [("value", 1)]]⟩ : DataFrame).cols ∧
      List.Sublist out.rows
        (⟨["value"], [[("value", 5)], [("value", 1)]]⟩ : DataFrame).rows ∧
      (∀ r ∈ out.rows, (3 : Rat) < Row.entry r "value") ∧
      (∀ r ∈ (⟨["value"], [[("value", 5)], [("value", 1)]]⟩ : DataFrame).rows,
        (3 : Rat) < Row.entry r "value" → r ∈ out.rows) :=
  c4_filter_data_rows ⟨["value"], [[("value", 5)], [("value", 1)]]⟩ 3
    (by decide)

/-- C7 counterexample: applied to a frame whose only column is `"x"`,
`filter_data` does not return normally — it propagates a `KeyError`. -/
theorem c7_filter_data_counterexample :
    filter_data ⟨["x"], [[("x", 1)]]⟩ 0 = Except.error "KeyError" ∧
      ∀ out : DataFrame, filter_data ⟨["x"], [[("x", 1)]]⟩ 0 ≠ Except.ok out := by
  constructor
  · rfl
  · intro out h
    rw [show filter_data ⟨["x"], [[("x", 1)]]⟩ 0 = Except.error "KeyError" from
      rfl] at h
    exact Except.noConfusion h

/-- C7 (amended): no operation validates its arguments or handles
exceptions; every operation returns normally on inputs of its annotated
type, except that `filter_data` on a frame without a `'value'` column
propagates the `KeyError` raised by the column access instead of
returning. -/
theorem c7_no_validation (df1 df2 : DataFrame) (t1 t2 : Rat) (i : Int)
    (h1 : "value" ∈ df1.cols) (h2 : "value" ∉ df2.cols) :
    (∃ out : DataFrame, filter_data df1 t1 = Except.ok out) ∧
      filter_data df2 t2 = Except.error "KeyError" ∧
      (∃ s : String, get_user_name i = PyVal.str s) := by
  refine ⟨⟨⟨df1.cols,
      df1.rows.filter (fun r => decide (t1 < Row.entry r "value"))⟩, ?_⟩,
    ?_, ⟨_, rfl⟩⟩
  · simp [filter_data, h1]
  · simp [filter_data, h2]

/-- Witness for the amended C7 at concrete frames with and without a
`'value'` column and the concrete id `7`. -/
theorem c7_no_validation_witness :
    (∃ out : DataFrame,
        filter_data ⟨["value"], [[("value", 2)]]⟩ 1 = Except.ok out) ∧
      filter_data ⟨["x"], [[("x", 2)]]⟩ 1 = Except.error "KeyError" ∧
      (∃ s : String, get_user_name 7 = PyVal.str s) :=
  c7_no_validation ⟨["value"], [[("value", 2)]]⟩ ⟨["x"], [[("x", 2)]]⟩ 1 1 7
    (by decide) (by decide)
